import Mathlib

/-!
# dircnt.c : recursive file and directory count

A shallow embedding of `src/dircnt.c` (functions `count` and `main`) and the
properties of it that the specification states.

The file system is seen through the three calls the program makes:
`opendir`, `readdir` and `lstat`.  A finite directory tree is a `Listing`: the
sequence of entries `readdir` yields for an opened directory, each entry
carrying what `lstat` and `opendir` answer for the composed child path.

The build without `DEBUG` is modelled.  The three builds the preprocessor
admits (`Build`) and the two platform constants `PATH_MAX` and `ULONG_MAX`
of `<limits.h>` are parameters (`Config`).  What the program writes is kept as
the sequence of the calls that write (`Event`).  The memory of the buffer
`subpath` is not modelled: `sprintf` is the text it composes (`subpath`) and
the number of bytes it stores (`sprintfBytes`).
-/

namespace Dircnt

/-! ## Platform declarations used by the program -/

/-- The path separator of line 28 (the non-Windows branch), as the text `%c` prints. -/
def PATH_SEPARATOR : String := "/"

/-- Exit status of line 31. -/
def EXIT_REACHED_LIMIT : Nat := 0x01

/-- The value of `DT_UNKNOWN` in `<dirent.h>`. -/
def DT_UNKNOWN : Nat := 0

/-- The value of `DT_DIR` in `<dirent.h>`. -/
def DT_DIR : Nat := 4

/-- The file type mask `S_IFMT` of `<sys/stat.h>`. -/
def S_IFMT : Nat := 0o170000

/-- The directory type `S_IFDIR` of `<sys/stat.h>`. -/
def S_IFDIR : Nat := 0o040000

/-- The macro `S_ISDIR(m)` of `<sys/stat.h>`. -/
def S_ISDIR (m : Nat) : Bool := (m &&& S_IFMT) == S_IFDIR

/-- The fields of `struct stat` that the program reads. -/
structure stat where
  st_mode : Nat
  st_size : Nat
  deriving DecidableEq

/-- The length in bytes of a C string (names and paths hold no NUL). -/
def strlen (s : String) : Nat := s.utf8ByteSize

/-! ## Configuration -/

/-- The three builds that lines 33-35 and 99 admit.
* `dtype`: `_DIRENT_HAVE_D_TYPE` defined and `PREFER_STAT` zero: the branch of
  lines 100-122 (`FEATURE_SIZE` is refused there by the `#error` of line 34);
* `lstat`: the branch of lines 124-136, without `FEATURE_SIZE`;
* `lstatSize`: the branch of lines 124-136 with `FEATURE_SIZE`. -/
inductive Build where
  | dtype
  | lstat
  | lstatSize
  deriving DecidableEq

/-- A build together with the platform constants of `<limits.h>`. -/
structure Config where
  build : Build
  PATH_MAX : Nat
  ULONG_MAX : Nat
  deriving DecidableEq

/-! ## Data model -/

/-- The structure of lines 38-46.  The two size fields exist in the
`FEATURE_SIZE` build only; the other builds never touch them. -/
structure filecount where
  dirs : Nat
  files : Nat
  size_dirs : Nat
  size_files : Nat
  deriving DecidableEq

/-- What `readdir` yields for an opened directory, in the order it yields it.
`done` is the NULL that ends the enumeration.  An `entry` carries the fields of
the `struct dirent` (`d_name`, `d_type`), the answer of `lstat` on the composed
child path (`none` when it fails), whether `opendir` on the composed child
path succeeds (`opens`) and what that directory then lists (`sub`), and the
entries that follow in the same directory (`next`). -/
inductive Listing where
  | done : Listing
  | entry (d_name : String) (d_type : Nat) (st : Option stat) (opens : Bool)
      (sub : Listing) (next : Listing) : Listing
  deriving DecidableEq

/-- One call that writes to standard output or to standard error. -/
inductive Event where
  /-- The call `perror(s)`: writes `s`, a colon and the system error to standard error. -/
  | perror (s : String)
  /-- The call `fprintf(stdout, "path too long (%ld) %s%c%s", ...)` of lines 81-86. -/
  | pathTooLong (len : Nat) (path : String) (d_name : String)
  /-- The call `fprintf(stderr, ...)` of lines 159-163. -/
  | dirLimit (dirs : Nat) (files : Nat)
  /-- The call `fprintf(stderr, ...)` of lines 175-179. -/
  | fileLimit (files : Nat) (dirs : Nat)
  /-- The call `printf("%s\t%lu\t%lu\t\n", ...)` of line 235. -/
  | totals (dir : String) (files : Nat) (dirs : Nat)
  /-- The call `printf("%s\t%lu\t%lu\t%lu\t%lu\t\n", ...)` of lines 228-233. -/
  | totalsSize (dir : String) (files : Nat) (size_files : Nat) (dirs : Nat) (size_dirs : Nat)
  deriving DecidableEq

/-- The text an event puts on standard output (empty for the calls that write
to standard error). -/
def Event.stdoutText : Event → String
  | .perror _ => ""
  | .pathTooLong len path d_name =>
      "path too long (" ++ Nat.repr len ++ ") " ++ path ++ PATH_SEPARATOR ++ d_name
  | .dirLimit _ _ => ""
  | .fileLimit _ _ => ""
  | .totals dir files dirs =>
      dir ++ "\t" ++ Nat.repr files ++ "\t" ++ Nat.repr dirs ++ "\t\n"
  | .totalsSize dir files size_files dirs size_dirs =>
      dir ++ "\t" ++ Nat.repr files ++ "\t" ++ Nat.repr size_files ++ "\t" ++
        Nat.repr dirs ++ "\t" ++ Nat.repr size_dirs ++ "\t\n"

/-- Everything a sequence of calls puts on standard output. -/
def stdoutOf : List Event → String
  | [] => ""
  | e :: es => e.stdoutText ++ stdoutOf es

/-- Whether an event is the path-too-long report of lines 81-86. -/
def Event.isPathTooLong : Event → Bool
  | .pathTooLong _ _ _ => true
  | _ => false

/-- How a call of `count` ends: the counters it leaves, the calls it made that
write, and the status passed to `exit` when the process was terminated
(`none` when the call returned to its caller). -/
structure Result where
  counts : filecount
  out : List Event
  exited : Option Nat
  deriving DecidableEq

/-! ## The program -/

/-- The text `sprintf(subpath, "%s%c%s", path, PATH_SEPARATOR, ent->d_name)` composes. -/
def subpath (path d_name : String) : String := path ++ PATH_SEPARATOR ++ d_name

/-- The increment `++` of an `unsigned long`. -/
def incr (cfg : Config) (x : Nat) : Nat := (x + 1) % (cfg.ULONG_MAX + 1)

/-- The statements `counts->size_dirs += size` and `counts->size_files += size`
(lines 169, 185), present in the `FEATURE_SIZE` build only, where `size` is
`statbuf.st_size`. -/
def addSize (cfg : Config) (total : Nat) (sb : Option stat) : Nat :=
  match cfg.build, sb with
  | .lstatSize, some b => (total + b.st_size) % (cfg.ULONG_MAX + 1)
  | _, _ => total

/-- Lines 90-137: the value of `isdir` for one entry, or `none` when `lstat`
was called and failed (lines 106-109, 125-128). -/
def classify (b : Build) (d_type : Nat) (st : Option stat) : Option Bool :=
  match b with
  | .dtype =>
    if DT_UNKNOWN = d_type then
      match st with
      | none => none
      | some sb => some (S_ISDIR sb.st_mode)
    else if DT_DIR = d_type then some true
    else some false
  | _ =>
    match st with
    | none => none
    | some sb => some (S_ISDIR sb.st_mode)

/-- The loop of lines 79-188 in a directory that was opened as `path`, from the
entry `readdir` yields next.  The recursive call of line 171 is unfolded in
place (`readdirLoop_dir` states it through `count`).  The composed child path
is a text of any length here: where it has exactly `PATH_MAX` bytes the
`sprintf` of lines 105, 124 and 166 stores past the end of `subpath` and what
the program does is undefined, so the value of this function says what the
program does only where no such path is met (`fitsBuffer`, `undisturbed`). -/
def readdirLoop (cfg : Config) (path : String) : Listing → filecount → Result
  | .done, c => ⟨c, [], none⟩
  | .entry d_name d_type st opens sub next, c =>
    if strlen path + 1 + strlen d_name > cfg.PATH_MAX then
      ⟨c, [.pathTooLong (strlen path + 1 + strlen d_name) path d_name], none⟩
    else
      match classify cfg.build d_type st with
      | none => ⟨c, [.perror (subpath path d_name)], none⟩
      | some true =>
        if ".." = d_name ∨ "." = d_name then readdirLoop cfg path next c
        else if cfg.ULONG_MAX = c.dirs then
          ⟨c, [.dirLimit c.dirs c.files], some EXIT_REACHED_LIMIT⟩
        else
          let c1 : filecount :=
            { c with dirs := incr cfg c.dirs, size_dirs := addSize cfg c.size_dirs st }
          let r : Result :=
            if opens then readdirLoop cfg (subpath path d_name) sub c1
            else ⟨c1, [.perror (subpath path d_name)], none⟩
          match r.exited with
          | some code => ⟨r.counts, r.out, some code⟩
          | none =>
            let r2 := readdirLoop cfg path next r.counts
            ⟨r2.counts, r.out ++ r2.out, r2.exited⟩
      | some false =>
        if cfg.ULONG_MAX = c.files then
          ⟨c, [.fileLimit c.files c.dirs], some EXIT_REACHED_LIMIT⟩
        else
          let c1 : filecount :=
            { c with files := incr cfg c.files, size_files := addSize cfg c.size_files st }
          let r2 := readdirLoop cfg path next c1
          ⟨r2.counts, r2.out, r2.exited⟩

/-- The function `count` of lines 54-194: `opens` and `l` are what `opendir(path)`
and the following `readdir` calls answer. -/
def count (cfg : Config) (path : String) (opens : Bool) (l : Listing) (c : filecount) :
    Result :=
  if opens then readdirLoop cfg path l c
  else ⟨c, [.perror path], none⟩

/-- How the process ends: what it wrote and its exit status. -/
structure Ended where
  out : List Event
  status : Nat
  deriving DecidableEq

/-- The counters `main` starts from (lines 201-206). -/
def zeroed : filecount := ⟨0, 0, 0, 0⟩

/-- The directory `main` chooses (lines 207-210): `argv[1]` when `argc > 1`,
the current directory otherwise. -/
def argDir (argv : List String) : String :=
  match argv with
  | _ :: d :: _ => d
  | _ => "."

/-- The function `main` of lines 196-240: `argv` is the argument vector
(`argc` its length), `opens` and `root` what the file system answers for the
chosen directory. -/
def main (cfg : Config) (argv : List String) (opens : Bool) (root : Listing) : Ended :=
  let r := count cfg (argDir argv) opens root zeroed
  match r.exited with
  | some code => ⟨r.out, code⟩
  | none =>
    if 0 < r.counts.files ∨ 0 < r.counts.dirs then
      match cfg.build with
      | .lstatSize =>
        ⟨r.out ++ [.totalsSize (argDir argv) r.counts.files r.counts.size_files r.counts.dirs
          r.counts.size_dirs], 0⟩
      | _ => ⟨r.out ++ [.totals (argDir argv) r.counts.files r.counts.dirs], 0⟩
    else ⟨r.out, 0⟩

/-! ## Sample trees -/

/-- Mode of a directory (`drwxr-xr-x`). -/
def modeDir : Nat := 0o040755

/-- Mode of a regular file (`-rw-r--r--`). -/
def modeReg : Nat := 0o100644

/-- Mode of a symbolic link. -/
def modeLnk : Nat := 0o120777

/-- The value of `DT_REG` in `<dirent.h>`. -/
def DT_REG : Nat := 8

/-- A regular file entry of the given name. -/
def file (name : String) (next : Listing) : Listing :=
  .entry name DT_REG (some ⟨modeReg, 0⟩) false .done next

/-- A readable directory entry of the given name and content. -/
def dir (name : String) (sub : Listing) (next : Listing) : Listing :=
  .entry name DT_DIR (some ⟨modeDir, 4096⟩) true sub next

/-- The entries `.` and `..` that every listing holds. -/
def dots (next : Listing) : Listing :=
  dir "." .done (dir ".." .done next)

/-- Linux on a 64-bit machine, in the given build. -/
def linux (b : Build) : Config := ⟨b, 4096, 2 ^ 64 - 1⟩

/-- The root with `a.txt`, `b.txt` and `sub/c.txt`. -/
def treeABC : Listing :=
  dots (file "a.txt" (file "b.txt" (dir "sub" (dots (file "c.txt" .done)) .done)))

/-- The root with one file and one empty subdirectory. -/
def treeOneOne : Listing :=
  dots (file "f" (dir "d" (dots .done) .done))

/-- A listing in which the `lstat` of the first real entry fails (the entry
was removed after `readdir` returned it) and a regular file follows. -/
def treeVanished : Listing :=
  dots (.entry "gone" DT_REG none false .done (file "a.txt" .done))

/-- The listing `treeVanished` with its two real entries in the other order. -/
def treeVanishedLast : Listing :=
  dots (file "a.txt" (.entry "gone" DT_REG none false .done .done))

/-! ## Notions the properties are stated with -/

/-- The traversal of the tree from `path` is undisturbed: every entry the loop
reaches has a composed child path that fits the buffer `subpath` together
with the NUL that ends it (fewer than `PATH_MAX` bytes, so that the guard of
line 80 lets it through and no `sprintf` stores past the end of the buffer),
and is classified (no `lstat` that the build calls fails). -/
def undisturbed (cfg : Config) : String → Listing → Bool
  | _, .done => true
  | path, .entry d_name d_type st opens sub next =>
    decide (strlen path + 1 + strlen d_name < cfg.PATH_MAX) &&
    (match classify cfg.build d_type st with
     | none => false
     | some true =>
       decide (".." = d_name ∨ "." = d_name) || !opens ||
         undisturbed cfg (subpath path d_name) sub
     | some false => true) &&
    undisturbed cfg path next

/-- No composed child path of the tree has exactly `PATH_MAX` bytes, the one
length the guard of line 80 lets through for which `sprintf` stores one byte
more than `subpath` holds: on such a tree every `sprintf` the program reaches
stays inside the buffer. -/
def fitsBuffer (cfg : Config) : String → Listing → Bool
  | _, .done => true
  | path, .entry d_name _ _ _ sub next =>
    decide (strlen path + 1 + strlen d_name ≠ cfg.PATH_MAX) &&
    fitsBuffer cfg (subpath path d_name) sub &&
    fitsBuffer cfg path next

/-- The number of non-directory entries of a tree, in the words of the
specification: every entry that is not a directory counts for one, at every
level; the entries below a directory that cannot be opened are left out.
Whether an entry is a directory is its own type, the one its mode tells
(`S_ISDIR` of the `st_mode` of the entry itself, a symbolic link being no
directory), whatever the type hint says; an entry whose mode cannot be had is
of neither kind. -/
def nonDirEntries : Listing → Nat
  | .done => 0
  | .entry d_name _ st opens sub next =>
    (match st with
     | none => 0
     | some sb =>
       if S_ISDIR sb.st_mode then
         (if ".." = d_name ∨ "." = d_name then 0
          else if opens then nonDirEntries sub else 0)
       else 1) + nonDirEntries next

/-- The number of directory entries of a tree other than the `.` and `..` of
every level, in the words of the specification; the entries below a directory
that cannot be opened are left out.  Whether an entry is a directory is its
own type, as for `nonDirEntries`. -/
def dirEntries : Listing → Nat
  | .done => 0
  | .entry d_name _ st opens sub next =>
    (match st with
     | none => 0
     | some sb =>
       if S_ISDIR sb.st_mode then
         (if ".." = d_name ∨ "." = d_name then 0
          else 1 + (if opens then dirEntries sub else 0))
       else 0) + dirEntries next

/-- The number of entries the build takes for non-directories on its way
through the tree (by the hint or by `lstat`, as `classify` does). -/
def filesSeen (b : Build) : Listing → Nat
  | .done => 0
  | .entry d_name d_type st opens sub next =>
    (match classify b d_type st with
     | some false => 1
     | some true =>
       if ".." = d_name ∨ "." = d_name then 0
       else if opens then filesSeen b sub else 0
     | none => 0) + filesSeen b next

/-- The number of entries other than `.` and `..` the build takes for
directories on its way through the tree. -/
def dirsSeen (b : Build) : Listing → Nat
  | .done => 0
  | .entry d_name d_type st opens sub next =>
    (match classify b d_type st with
     | some true =>
       if ".." = d_name ∨ "." = d_name then 0
       else 1 + (if opens then dirsSeen b sub else 0)
     | _ => 0) + dirsSeen b next

/-- The second tree lists the entries of the first in another order: at any
level two neighbours may be exchanged, any number of times. -/
inductive Shuffle : Listing → Listing → Prop where
  | same (l : Listing) : Shuffle l l
  | swap (n1 : String) (t1 : Nat) (s1 : Option stat) (o1 : Bool) (sub1 : Listing)
      (n2 : String) (t2 : Nat) (s2 : Option stat) (o2 : Bool) (sub2 : Listing)
      (next : Listing) :
      Shuffle (.entry n1 t1 s1 o1 sub1 (.entry n2 t2 s2 o2 sub2 next))
        (.entry n2 t2 s2 o2 sub2 (.entry n1 t1 s1 o1 sub1 next))
  | inside (d_name : String) (d_type : Nat) (st : Option stat) (opens : Bool)
      {sub sub1 next next1 : Listing} :
      Shuffle sub sub1 → Shuffle next next1 →
      Shuffle (.entry d_name d_type st opens sub next)
        (.entry d_name d_type st opens sub1 next1)
  | trans {l1 l2 l3 : Listing} : Shuffle l1 l2 → Shuffle l2 l3 → Shuffle l1 l3

/-- The second tree is the first with one subdirectory that cannot be opened
replaced by an empty directory that can. -/
inductive Emptied : Listing → Listing → Prop where
  | here (d_name : String) (d_type : Nat) (st : Option stat) (sub next : Listing) :
      Emptied (.entry d_name d_type st false sub next)
        (.entry d_name d_type st true .done next)
  | under (d_name : String) (d_type : Nat) (st : Option stat) (opens : Bool)
      {sub sub1 : Listing} (next : Listing) :
      Emptied sub sub1 →
      Emptied (.entry d_name d_type st opens sub next)
        (.entry d_name d_type st opens sub1 next)
  | after (d_name : String) (d_type : Nat) (st : Option stat) (opens : Bool)
      (sub : Listing) {next next1 : Listing} :
      Emptied next next1 →
      Emptied (.entry d_name d_type st opens sub next)
        (.entry d_name d_type st opens sub next1)

/-- No `lstat` fails in the tree, and the type hint of every entry is
`DT_UNKNOWN` or says "directory" exactly when the mode `lstat` reports does. -/
def hintsAgree : Listing → Bool
  | .done => true
  | .entry _ d_type st _ sub next =>
    (match st with
     | none => false
     | some sb => decide (DT_UNKNOWN = d_type) || (decide (DT_DIR = d_type) == S_ISDIR sb.st_mode)) &&
    hintsAgree sub && hintsAgree next

/-- The number of bytes `sprintf` stores into `subpath`: the composed text and
the NUL that ends it. -/
def sprintfBytes (path d_name : String) : Nat := strlen (subpath path d_name) + 1

/-- A name of `n` bytes. -/
def nameOfLength (n : Nat) : String := String.mk (List.replicate n 'x')

/-- A path of `k` components of `n` bytes each. -/
def deepPath : Nat → Nat → String
  | 0, _ => ""
  | k + 1, n => deepPath k n ++ "/" ++ nameOfLength n

/-- A root directory `4016` bytes down, which `opendir` still accepts. -/
def deepRoot : String := deepPath 16 250

/-- The listing of `deepRoot`: a subdirectory `sub` that holds a file whose
name is 100 bytes long, then a file `x`; after `sub`, the file `after.txt`. -/
def treeDeep : Listing :=
  dots (dir "sub" (dots (file (nameOfLength 100) (file "x" .done))) (file "after.txt" .done))

/-! ## How one iteration of the loop goes -/

/-- The recursive call of line 171, through `count`: a directory that is not
`.` or `..` is counted, `count` runs on the composed path, and (unless the
process was terminated) the loop goes on from the counters `count` left. -/
theorem readdirLoop_dir (cfg : Config) (path d_name : String) (d_type : Nat)
    (st : Option stat) (opens : Bool) (sub next : Listing) (c : filecount)
    (hlen : ¬ strlen path + 1 + strlen d_name > cfg.PATH_MAX)
    (hdir : classify cfg.build d_type st = some true)
    (hdot : ¬ (".." = d_name ∨ "." = d_name))
    (hmax : cfg.ULONG_MAX ≠ c.dirs) :
    readdirLoop cfg path (.entry d_name d_type st opens sub next) c =
      (let r := count cfg (subpath path d_name) opens sub
          { c with dirs := incr cfg c.dirs, size_dirs := addSize cfg c.size_dirs st }
       match r.exited with
       | some code => ⟨r.counts, r.out, some code⟩
       | none =>
         ⟨(readdirLoop cfg path next r.counts).counts,
          r.out ++ (readdirLoop cfg path next r.counts).out,
          (readdirLoop cfg path next r.counts).exited⟩) := by
  simp only [readdirLoop, count, if_neg hlen, hdir, if_neg hdot, if_neg hmax]

/-- A non-directory is counted and the loop goes on (lines 174-186). -/
theorem readdirLoop_file (cfg : Config) (path d_name : String) (d_type : Nat)
    (st : Option stat) (opens : Bool) (sub next : Listing) (c : filecount)
    (hlen : ¬ strlen path + 1 + strlen d_name > cfg.PATH_MAX)
    (hdir : classify cfg.build d_type st = some false)
    (hmax : cfg.ULONG_MAX ≠ c.files) :
    readdirLoop cfg path (.entry d_name d_type st opens sub next) c =
      readdirLoop cfg path next
        { c with files := incr cfg c.files, size_files := addSize cfg c.size_files st } := by
  simp only [readdirLoop, if_neg hlen, hdir, if_neg hmax]

/-- The entries `.` and `..`, when they are directories, are passed over (line 154). -/
theorem readdirLoop_dot (cfg : Config) (path d_name : String) (d_type : Nat)
    (st : Option stat) (opens : Bool) (sub next : Listing) (c : filecount)
    (hlen : ¬ strlen path + 1 + strlen d_name > cfg.PATH_MAX)
    (hdir : classify cfg.build d_type st = some true)
    (hdot : ".." = d_name ∨ "." = d_name) :
    readdirLoop cfg path (.entry d_name d_type st opens sub next) c =
      readdirLoop cfg path next c := by
  simp only [readdirLoop, if_neg hlen, hdir, if_pos hdot]

/-- The guard of lines 80-88: the report is written and the call returns. -/
theorem readdirLoop_tooLong (cfg : Config) (path d_name : String) (d_type : Nat)
    (st : Option stat) (opens : Bool) (sub next : Listing) (c : filecount)
    (hlen : strlen path + 1 + strlen d_name > cfg.PATH_MAX) :
    readdirLoop cfg path (.entry d_name d_type st opens sub next) c =
      ⟨c, [.pathTooLong (strlen path + 1 + strlen d_name) path d_name], none⟩ := by
  simp only [readdirLoop, if_pos hlen]

/-- The failure of `lstat` (lines 106-109, 125-128): `perror` and the call returns. -/
theorem readdirLoop_lstatFails (cfg : Config) (path d_name : String) (d_type : Nat)
    (st : Option stat) (opens : Bool) (sub next : Listing) (c : filecount)
    (hlen : ¬ strlen path + 1 + strlen d_name > cfg.PATH_MAX)
    (hcl : classify cfg.build d_type st = none) :
    readdirLoop cfg path (.entry d_name d_type st opens sub next) c =
      ⟨c, [.perror (subpath path d_name)], none⟩ := by
  simp only [readdirLoop, if_neg hlen, hcl]

/-- The increment of a counter below the maximum does not wrap. -/
theorem incr_of_ne (cfg : Config) (x : Nat) (hx : x ≤ cfg.ULONG_MAX) (hne : cfg.ULONG_MAX ≠ x) :
    incr cfg x = x + 1 := by
  unfold incr
  apply Nat.mod_eq_of_lt
  omega

/-- The entries the build sees, at an entry it takes for a non-directory. -/
theorem entries_file (b : Build) (d_name : String) (d_type : Nat) (st : Option stat)
    (opens : Bool) (sub next : Listing) (hcl : classify b d_type st = some false) :
    filesSeen b (.entry d_name d_type st opens sub next) = 1 + filesSeen b next ∧
    dirsSeen b (.entry d_name d_type st opens sub next) = dirsSeen b next := by
  simp [filesSeen, dirsSeen, hcl]

/-- The entries the build sees, at a `.` or `..` it takes for a directory. -/
theorem entries_dot (b : Build) (d_name : String) (d_type : Nat) (st : Option stat)
    (opens : Bool) (sub next : Listing) (hcl : classify b d_type st = some true)
    (hdot : ".." = d_name ∨ "." = d_name) :
    filesSeen b (.entry d_name d_type st opens sub next) = filesSeen b next ∧
    dirsSeen b (.entry d_name d_type st opens sub next) = dirsSeen b next := by
  simp [filesSeen, dirsSeen, hcl, hdot]

/-- The entries the build sees, at a directory that cannot be opened. -/
theorem entries_closed (b : Build) (d_name : String) (d_type : Nat) (st : Option stat)
    (sub next : Listing) (hcl : classify b d_type st = some true)
    (hdot : ¬ (".." = d_name ∨ "." = d_name)) :
    filesSeen b (.entry d_name d_type st false sub next) = filesSeen b next ∧
    dirsSeen b (.entry d_name d_type st false sub next) = 1 + dirsSeen b next := by
  simp [filesSeen, dirsSeen, hcl, hdot]

/-- The entries the build sees, at a directory that can be opened. -/
theorem entries_open (b : Build) (d_name : String) (d_type : Nat) (st : Option stat)
    (sub next : Listing) (hcl : classify b d_type st = some true)
    (hdot : ¬ (".." = d_name ∨ "." = d_name)) :
    filesSeen b (.entry d_name d_type st true sub next) =
      filesSeen b sub + filesSeen b next ∧
    dirsSeen b (.entry d_name d_type st true sub next) =
      1 + dirsSeen b sub + dirsSeen b next := by
  simp [filesSeen, dirsSeen, hcl, hdot]

/-- On an undisturbed traversal that stays below the counting limit, the loop
adds to the counters the numbers of entries the build sees of each kind, and
returns. -/
theorem readdirLoop_undisturbed (cfg : Config) (l : Listing) :
    ∀ (path : String) (c : filecount), undisturbed cfg path l = true →
      c.files + filesSeen cfg.build l ≤ cfg.ULONG_MAX →
      c.dirs + dirsSeen cfg.build l ≤ cfg.ULONG_MAX →
      (readdirLoop cfg path l c).counts.files = c.files + filesSeen cfg.build l ∧
      (readdirLoop cfg path l c).counts.dirs = c.dirs + dirsSeen cfg.build l ∧
      (readdirLoop cfg path l c).exited = none := by
  induction l with
  | done => intro path c _ _ _; simp [readdirLoop, filesSeen, dirsSeen]
  | entry d_name d_type st opens sub next ihs ihn =>
    intro path c hu hf hd
    simp only [undisturbed, Bool.and_eq_true, decide_eq_true_eq] at hu
    obtain ⟨⟨hle, hcase⟩, hnext⟩ := hu
    have hlen : ¬ strlen path + 1 + strlen d_name > cfg.PATH_MAX := by omega
    cases hcl : classify cfg.build d_type st with
    | none => simp [hcl] at hcase
    | some b =>
      cases b with
      | true =>
        by_cases hdot : ".." = d_name ∨ "." = d_name
        · rw [readdirLoop_dot cfg path d_name d_type st opens sub next c hlen hcl hdot]
          obtain ⟨e1, e2⟩ := entries_dot cfg.build d_name d_type st opens sub next hcl hdot
          rw [e1] at hf ⊢
          rw [e2] at hd ⊢
          exact ihn path c hnext hf hd
        · cases opens with
          | false =>
            obtain ⟨e1, e2⟩ := entries_closed cfg.build d_name d_type st sub next hcl hdot
            rw [e1] at hf ⊢
            rw [e2] at hd ⊢
            have hmax : cfg.ULONG_MAX ≠ c.dirs := by omega
            have hi := incr_of_ne cfg c.dirs (by omega) hmax
            rw [readdirLoop_dir cfg path d_name d_type st false sub next c hlen hcl hdot hmax]
            simp only [count, Bool.false_eq_true, if_false]
            have hn := ihn path
              { c with dirs := incr cfg c.dirs, size_dirs := addSize cfg c.size_dirs st }
              hnext (by dsimp only; omega) (by dsimp only; omega)
            dsimp only at hn
            refine ⟨?_, ?_, hn.2.2⟩
            · rw [hn.1]
            · rw [hn.2.1]; omega
          | true =>
            obtain ⟨e1, e2⟩ := entries_open cfg.build d_name d_type st sub next hcl hdot
            rw [e1] at hf ⊢
            rw [e2] at hd ⊢
            have hmax : cfg.ULONG_MAX ≠ c.dirs := by omega
            have hi := incr_of_ne cfg c.dirs (by omega) hmax
            rw [readdirLoop_dir cfg path d_name d_type st true sub next c hlen hcl hdot hmax]
            simp only [count, if_true]
            have hsub : undisturbed cfg (subpath path d_name) sub = true := by
              simpa [hcl, hdot] using hcase
            have hs := ihs (subpath path d_name)
              { c with dirs := incr cfg c.dirs, size_dirs := addSize cfg c.size_dirs st }
              hsub (by dsimp only; omega) (by dsimp only; omega)
            dsimp only at hs
            obtain ⟨hs1, hs2, hs3⟩ := hs
            simp only [hs3]
            have hn := ihn path (readdirLoop cfg (subpath path d_name) sub
              { c with dirs := incr cfg c.dirs, size_dirs := addSize cfg c.size_dirs st }).counts
              hnext (by rw [hs1]; omega) (by rw [hs2]; omega)
            refine ⟨?_, ?_, hn.2.2⟩
            · rw [hn.1, hs1]; omega
            · rw [hn.2.1, hs2]; omega
      | false =>
        obtain ⟨e1, e2⟩ := entries_file cfg.build d_name d_type st opens sub next hcl
        rw [e1] at hf ⊢
        rw [e2] at hd ⊢
        have hmax : cfg.ULONG_MAX ≠ c.files := by omega
        have hi := incr_of_ne cfg c.files (by omega) hmax
        rw [readdirLoop_file cfg path d_name d_type st opens sub next c hlen hcl hmax]
        have hn := ihn path
          { c with files := incr cfg c.files, size_files := addSize cfg c.size_files st }
          hnext (by dsimp only; omega) (by dsimp only; omega)
        dsimp only at hn
        refine ⟨?_, ?_, hn.2.2⟩
        · rw [hn.1]; omega
        · rw [hn.2.1]

/-- What the first entry adds to the numbers of entries the build sees stands
apart from what the entries after it add. -/
theorem entries_head (b : Build) (d_name : String) (d_type : Nat) (st : Option stat)
    (opens : Bool) (sub next : Listing) :
    filesSeen b (.entry d_name d_type st opens sub next) =
      filesSeen b (.entry d_name d_type st opens sub .done) + filesSeen b next ∧
    dirsSeen b (.entry d_name d_type st opens sub next) =
      dirsSeen b (.entry d_name d_type st opens sub .done) + dirsSeen b next := by
  simp [filesSeen, dirsSeen]

/-- Whether the traversal is undisturbed is decided entry by entry. -/
theorem undisturbed_head (cfg : Config) (path d_name : String) (d_type : Nat)
    (st : Option stat) (opens : Bool) (sub next : Listing) :
    undisturbed cfg path (.entry d_name d_type st opens sub next) =
      (undisturbed cfg path (.entry d_name d_type st opens sub .done) &&
        undisturbed cfg path next) := by
  simp [undisturbed]

/-- Listing the entries in another order changes neither number of entries the build sees. -/
theorem shuffle_entries (b : Build) {l l1 : Listing} (h : Shuffle l l1) :
    filesSeen b l = filesSeen b l1 ∧ dirsSeen b l = dirsSeen b l1 := by
  induction h with
  | same l => exact ⟨rfl, rfl⟩
  | swap n1 t1 s1 o1 sub1 n2 t2 s2 o2 sub2 next =>
    obtain ⟨a1, a2⟩ := entries_head b n1 t1 s1 o1 sub1 (.entry n2 t2 s2 o2 sub2 next)
    obtain ⟨b1, b2⟩ := entries_head b n2 t2 s2 o2 sub2 next
    obtain ⟨c1, c2⟩ := entries_head b n2 t2 s2 o2 sub2 (.entry n1 t1 s1 o1 sub1 next)
    obtain ⟨d1, d2⟩ := entries_head b n1 t1 s1 o1 sub1 next
    rw [a1, a2, b1, b2, c1, c2, d1, d2]
    constructor <;> omega
  | inside d_name d_type st opens _ _ ih1 ih2 =>
    simp only [filesSeen, dirsSeen, ih1.1, ih1.2, ih2.1, ih2.2, and_self]
  | trans _ _ ih1 ih2 => exact ⟨ih1.1.trans ih2.1, ih1.2.trans ih2.2⟩

/-- Listing the entries in another order keeps the traversal undisturbed. -/
theorem shuffle_undisturbed (cfg : Config) {l l1 : Listing} (h : Shuffle l l1) :
    ∀ path : String, undisturbed cfg path l = undisturbed cfg path l1 := by
  induction h with
  | same l => intro path; rfl
  | swap n1 t1 s1 o1 sub1 n2 t2 s2 o2 sub2 next =>
    intro path
    rw [undisturbed_head cfg path n1 t1 s1 o1 sub1 (.entry n2 t2 s2 o2 sub2 next),
      undisturbed_head cfg path n2 t2 s2 o2 sub2 next,
      undisturbed_head cfg path n2 t2 s2 o2 sub2 (.entry n1 t1 s1 o1 sub1 next),
      undisturbed_head cfg path n1 t1 s1 o1 sub1 next]
    exact Bool.and_left_comm _ _ _
  | inside d_name d_type st opens _ _ ih1 ih2 =>
    intro path
    simp only [undisturbed, ih1, ih2]
  | trans _ _ ih1 ih2 => intro path; exact (ih1 path).trans (ih2 path)

/-- The counters and the way the loop ends depend on the subdirectory of the
first entry and on the entries after it only through the counters and the
ending of `count` on the one and of the loop on the others. -/
theorem readdirLoop_congr (cfg : Config) (path d_name : String) (d_type : Nat)
    (st : Option stat) (o o1 : Bool) (sub sub1 next next1 : Listing) (c : filecount)
    (hchild : ∀ c1 : filecount,
      (count cfg (subpath path d_name) o sub c1).counts =
        (count cfg (subpath path d_name) o1 sub1 c1).counts ∧
      (count cfg (subpath path d_name) o sub c1).exited =
        (count cfg (subpath path d_name) o1 sub1 c1).exited)
    (hnext : ∀ c1 : filecount,
      (readdirLoop cfg path next c1).counts = (readdirLoop cfg path next1 c1).counts ∧
      (readdirLoop cfg path next c1).exited = (readdirLoop cfg path next1 c1).exited) :
    (readdirLoop cfg path (.entry d_name d_type st o sub next) c).counts =
      (readdirLoop cfg path (.entry d_name d_type st o1 sub1 next1) c).counts ∧
    (readdirLoop cfg path (.entry d_name d_type st o sub next) c).exited =
      (readdirLoop cfg path (.entry d_name d_type st o1 sub1 next1) c).exited := by
  by_cases hlen : strlen path + 1 + strlen d_name > cfg.PATH_MAX
  · simp [readdirLoop, hlen]
  · cases hcl : classify cfg.build d_type st with
    | none => simp [readdirLoop, hlen, hcl]
    | some b =>
      cases b with
      | true =>
        by_cases hdot : ".." = d_name ∨ "." = d_name
        · rw [readdirLoop_dot cfg path d_name d_type st o sub next c hlen hcl hdot,
            readdirLoop_dot cfg path d_name d_type st o1 sub1 next1 c hlen hcl hdot]
          exact hnext c
        · by_cases hmax : cfg.ULONG_MAX = c.dirs
          · simp [readdirLoop, hlen, hcl, hdot, hmax]
          · rw [readdirLoop_dir cfg path d_name d_type st o sub next c hlen hcl hdot hmax,
              readdirLoop_dir cfg path d_name d_type st o1 sub1 next1 c hlen hcl hdot hmax]
            obtain ⟨h1, h2⟩ := hchild
              { c with dirs := incr cfg c.dirs, size_dirs := addSize cfg c.size_dirs st }
            simp only
            rw [← h2, ← h1]
            cases (count cfg (subpath path d_name) o sub
              { c with dirs := incr cfg c.dirs,
                       size_dirs := addSize cfg c.size_dirs st }).exited with
            | some code => exact ⟨rfl, rfl⟩
            | none => exact hnext _
      | false =>
        by_cases hmax : cfg.ULONG_MAX = c.files
        · simp [readdirLoop, hlen, hcl, hmax]
        · rw [readdirLoop_file cfg path d_name d_type st o sub next c hlen hcl hmax,
            readdirLoop_file cfg path d_name d_type st o1 sub1 next1 c hlen hcl hmax]
          exact hnext _

/-- Replacing a subdirectory that cannot be opened by an empty one changes
neither the counters nor the way the loop ends. -/
theorem readdirLoop_emptied (cfg : Config) {l l1 : Listing} (h : Emptied l l1) :
    ∀ (path : String) (c : filecount),
      (readdirLoop cfg path l c).counts = (readdirLoop cfg path l1 c).counts ∧
      (readdirLoop cfg path l c).exited = (readdirLoop cfg path l1 c).exited := by
  induction h with
  | here d_name d_type st sub next =>
    intro path c
    apply readdirLoop_congr
    · intro c1; simp [count, readdirLoop]
    · intro c1; exact ⟨rfl, rfl⟩
  | under d_name d_type st opens next _ ih =>
    intro path c
    apply readdirLoop_congr
    · intro c1
      cases opens with
      | false => exact ⟨rfl, rfl⟩
      | true => simpa [count] using ih (subpath path d_name) c1
    · intro c1; exact ⟨rfl, rfl⟩
  | after d_name d_type st opens sub _ ih =>
    intro path c
    apply readdirLoop_congr
    · intro c1; exact ⟨rfl, rfl⟩
    · intro c1; exact ih path c1

/-- The length of a composed path. -/
theorem strlen_append (a b : String) : strlen (a ++ b) = strlen a + strlen b := by
  cases a with
  | mk as =>
    cases b with
    | mk bs =>
      show String.utf8ByteSize ⟨as ++ bs⟩ = String.utf8ByteSize ⟨as⟩ + String.utf8ByteSize ⟨bs⟩
      simp only [String.utf8ByteSize_mk, String.utf8Len_append]

/-- The length of the composed child path is the one the guard of line 80 computes. -/
theorem strlen_subpath (path d_name : String) :
    strlen (subpath path d_name) = strlen path + 1 + strlen d_name := by
  have h : strlen "/" = 1 := by decide
  simp [subpath, PATH_SEPARATOR, strlen_append, h]

/-- The name `nameOfLength n` has `n` bytes. -/
theorem strlen_nameOfLength (n : Nat) : strlen (nameOfLength n) = n := by
  have h : ('x').utf8Size = 1 := by decide
  induction n with
  | zero => rfl
  | succ k ih =>
    simp only [strlen, nameOfLength, String.utf8ByteSize_mk] at ih ⊢
    rw [List.replicate_succ, String.utf8Len_cons, ih, h]

/-- The path `deepPath k n` has `k * (n + 1)` bytes. -/
theorem strlen_deepPath (k n : Nat) : strlen (deepPath k n) = k * (n + 1) := by
  have h : strlen "/" = 1 := by decide
  induction k with
  | zero => simp [deepPath]; rfl
  | succ k ih =>
    simp only [deepPath, strlen_append, strlen_nameOfLength, ih, h]
    ring

/-- What a sequence of calls puts on standard output, piece by piece. -/
theorem stdoutOf_append (a b : List Event) : stdoutOf (a ++ b) = stdoutOf a ++ stdoutOf b := by
  induction a with
  | nil => simp [stdoutOf]
  | cons e es ih => simp [stdoutOf, ih, String.append_assoc]

/-- Calls that put nothing on standard output leave it empty. -/
theorem stdoutOf_empty (out : List Event) (h : ∀ e ∈ out, e.stdoutText = "") :
    stdoutOf out = "" := by
  induction out with
  | nil => rfl
  | cons e es ih =>
    simp only [stdoutOf]
    rw [h e (List.mem_cons_self _ _), ih (fun x hx => h x (List.mem_cons_of_mem _ hx))]
    rfl

/-- The only call of the loop that writes to standard output is the
path-too-long report. -/
theorem readdirLoop_stdout (cfg : Config) (l : Listing) :
    ∀ (path : String) (c : filecount), ∀ e ∈ (readdirLoop cfg path l c).out,
      e.isPathTooLong = true ∨ e.stdoutText = "" := by
  induction l with
  | done => intro path c e he; simp [readdirLoop] at he
  | entry d_name d_type st opens sub next ihs ihn =>
    intro path c e he
    by_cases hlen : strlen path + 1 + strlen d_name > cfg.PATH_MAX
    · simp [readdirLoop, hlen] at he
      left; rw [he]; rfl
    · cases hcl : classify cfg.build d_type st with
      | none =>
        simp [readdirLoop, hlen, hcl] at he
        right; rw [he]; rfl
      | some b =>
        cases b with
        | true =>
          by_cases hdot : ".." = d_name ∨ "." = d_name
          · rw [readdirLoop_dot cfg path d_name d_type st opens sub next c hlen hcl hdot] at he
            exact ihn path c e he
          · by_cases hmax : cfg.ULONG_MAX = c.dirs
            · simp [readdirLoop, hlen, hcl, hdot, hmax] at he
              right; rw [he]; rfl
            · rw [readdirLoop_dir cfg path d_name d_type st opens sub next c hlen hcl hdot
                hmax] at he
              have hchild : ∀ x ∈ (count cfg (subpath path d_name) opens sub
                  { c with dirs := incr cfg c.dirs,
                           size_dirs := addSize cfg c.size_dirs st }).out,
                  x.isPathTooLong = true ∨ x.stdoutText = "" := by
                cases opens with
                | false =>
                  intro x hx
                  simp [count] at hx
                  right; rw [hx]; rfl
                | true => simpa [count] using ihs (subpath path d_name) _
              cases hex : (count cfg (subpath path d_name) opens sub
                  { c with dirs := incr cfg c.dirs,
                           size_dirs := addSize cfg c.size_dirs st }).exited with
              | some code =>
                simp only [hex] at he
                exact hchild e he
              | none =>
                simp only [hex] at he
                rcases List.mem_append.1 he with h | h
                · exact hchild e h
                · exact ihn path _ e h
        | false =>
          by_cases hmax : cfg.ULONG_MAX = c.files
          · simp [readdirLoop, hlen, hcl, hmax] at he
            right; rw [he]; rfl
          · rw [readdirLoop_file cfg path d_name d_type st opens sub next c hlen hcl hmax] at he
            exact ihn path _ e he

/-- When `count` reports no path as too long, it leaves standard output empty. -/
theorem count_stdout (cfg : Config) (path : String) (opens : Bool) (l : Listing)
    (c : filecount)
    (h : ∀ e ∈ (count cfg path opens l c).out, e.isPathTooLong = false) :
    stdoutOf (count cfg path opens l c).out = "" := by
  apply stdoutOf_empty
  intro e he
  have hk : e.isPathTooLong = true ∨ e.stdoutText = "" := by
    cases opens with
    | false =>
      simp [count] at he
      right; rw [he]; rfl
    | true =>
      simp only [count, if_true] at he
      exact readdirLoop_stdout cfg l path c e he
  rcases hk with hk | hk
  · rw [h e he] at hk; exact absurd hk (by decide)
  · exact hk

/-- What `main` does once `count` has returned (lines 226-239). -/
theorem main_returned (cfg : Config) (argv : List String) (opens : Bool) (root : Listing)
    (hr : (count cfg (argDir argv) opens root zeroed).exited = none) :
    main cfg argv opens root =
      ⟨(count cfg (argDir argv) opens root zeroed).out ++
        (if 0 < (count cfg (argDir argv) opens root zeroed).counts.files ∨
            0 < (count cfg (argDir argv) opens root zeroed).counts.dirs then
          (match cfg.build with
           | .lstatSize =>
             [Event.totalsSize (argDir argv)
               (count cfg (argDir argv) opens root zeroed).counts.files
               (count cfg (argDir argv) opens root zeroed).counts.size_files
               (count cfg (argDir argv) opens root zeroed).counts.dirs
               (count cfg (argDir argv) opens root zeroed).counts.size_dirs]
           | _ =>
             [Event.totals (argDir argv)
               (count cfg (argDir argv) opens root zeroed).counts.files
               (count cfg (argDir argv) opens root zeroed).counts.dirs])
         else []), 0⟩ := by
  simp only [main, hr]
  split
  · cases cfg.build <;> rfl
  · simp

/-- Where the hints agree with `lstat`, both builds give `isdir` the same value. -/
theorem classify_agree (d_type : Nat) (sb : stat)
    (h : (decide (DT_UNKNOWN = d_type) || (decide (DT_DIR = d_type) == S_ISDIR sb.st_mode)) = true) :
    classify .dtype d_type (some sb) = classify .lstat d_type (some sb) := by
  by_cases hu : DT_UNKNOWN = d_type
  · simp [classify, hu]
  · by_cases hd : DT_DIR = d_type
    · simp [hu, hd] at h
      simp [classify, hu, hd, h]
    · simp [hu, hd] at h
      simp [classify, hu, hd, h]

/-- Where no `lstat` fails and the hints agree with the modes, what each build
takes an entry for is the type of the entry, so the entries the build sees are
the entries of the specification. -/
theorem seen_of_hintsAgree (b : Build) (l : Listing) :
    hintsAgree l = true →
      filesSeen b l = nonDirEntries l ∧ dirsSeen b l = dirEntries l := by
  induction l with
  | done => intro _; exact ⟨rfl, rfl⟩
  | entry d_name d_type st opens sub next ihs ihn =>
    intro h
    simp only [hintsAgree, Bool.and_eq_true] at h
    obtain ⟨⟨hst, hsub⟩, hnext⟩ := h
    cases st with
    | none => simp at hst
    | some sb =>
      have hcl : classify b d_type (some sb) = some (S_ISDIR sb.st_mode) := by
        cases b with
        | dtype => rw [classify_agree d_type sb hst]; rfl
        | lstat => rfl
        | lstatSize => rfl
      obtain ⟨s1, s2⟩ := ihs hsub
      obtain ⟨n1, n2⟩ := ihn hnext
      cases hm : S_ISDIR sb.st_mode <;>
        simp [filesSeen, dirsSeen, nonDirEntries, dirEntries, hcl, hm, s1, s2, n1, n2]

/-- Replacing a subdirectory that cannot be opened by an empty one brings in no
composed path that fills the buffer. -/
theorem emptied_fitsBuffer (cfg : Config) {l l1 : Listing} (h : Emptied l l1) :
    ∀ path : String, fitsBuffer cfg path l = true → fitsBuffer cfg path l1 = true := by
  induction h with
  | here d_name d_type st sub next =>
    intro path hf
    simp only [fitsBuffer, Bool.and_eq_true] at hf ⊢
    exact ⟨⟨hf.1.1, trivial⟩, hf.2⟩
  | under d_name d_type st opens next _ ih =>
    intro path hf
    simp only [fitsBuffer, Bool.and_eq_true] at hf ⊢
    exact ⟨⟨hf.1.1, ih _ hf.1.2⟩, hf.2⟩
  | after d_name d_type st opens sub _ ih =>
    intro path hf
    simp only [fitsBuffer, Bool.and_eq_true] at hf ⊢
    exact ⟨hf.1, ih _ hf.2⟩

/-! ## C1 : what the final counters are -/

/-- C1, as stated, fails: in the listing `treeVanished` of an opened root the
`lstat` of the entry before `a.txt` fails, and `count` leaves `files = 0` though
`a.txt` is a non-directory entry that lies below no unopenable directory. -/
theorem C1_counterexample :
    (count (linux .lstat) "/r" true treeVanished zeroed).counts.files = 0 ∧
    nonDirEntries treeVanished = 1 ∧
    (count (linux .lstat) "/r" true treeVanished zeroed).counts.files ≠
      nonDirEntries treeVanished := by
  decide

/-- C1, amended: when no `lstat` fails, every type hint is `DT_UNKNOWN` or
agrees with the type of its entry, every composed child path the traversal
reaches has fewer than `PATH_MAX` bytes, and the tree has fewer than
`ULONG_MAX` entries of each kind, `count` from zeroed counters returns with
`files` the number of non-directory entries and `dirs` the number of directory
entries other than `.` and `..`, the entries below a directory that cannot be
opened being the only ones left out (all of them when the root itself cannot
be opened). -/
theorem C1_counts_of_undisturbed_tree (cfg : Config) (path : String) (l : Listing)
    (ha : hintsAgree l = true)
    (hu : undisturbed cfg path l = true)
    (hf : nonDirEntries l < cfg.ULONG_MAX)
    (hd : dirEntries l < cfg.ULONG_MAX) :
    (count cfg path true l zeroed).counts.files = nonDirEntries l ∧
    (count cfg path true l zeroed).counts.dirs = dirEntries l ∧
    (count cfg path true l zeroed).exited = none ∧
    (count cfg path false l zeroed).counts.files = 0 ∧
    (count cfg path false l zeroed).counts.dirs = 0 ∧
    (count cfg path false l zeroed).exited = none := by
  obtain ⟨e1, e2⟩ := seen_of_hintsAgree cfg.build l ha
  have h := readdirLoop_undisturbed cfg l path zeroed hu
    (by rw [e1]; simp only [zeroed]; omega) (by rw [e2]; simp only [zeroed]; omega)
  rw [e1, e2] at h
  simp only [zeroed, Nat.zero_add] at h
  exact ⟨h.1, h.2.1, h.2.2, rfl, rfl, rfl⟩

/-- The two trees the specification names: `a.txt`, `b.txt` and `sub/c.txt` give
`files = 3`, `dirs = 1`; one file and one empty subdirectory give `files = 1`,
`dirs = 1`. -/
theorem C1_counts_of_undisturbed_tree_witness :
    (hintsAgree treeABC = true ∧
      undisturbed (linux .dtype) "/r" treeABC = true ∧
      nonDirEntries treeABC < (linux .dtype).ULONG_MAX ∧
      dirEntries treeABC < (linux .dtype).ULONG_MAX) ∧
    ((count (linux .dtype) "/r" true treeABC zeroed).counts.files = nonDirEntries treeABC ∧
      (count (linux .dtype) "/r" true treeABC zeroed).counts.dirs = dirEntries treeABC ∧
      (count (linux .dtype) "/r" true treeABC zeroed).exited = none ∧
      (count (linux .dtype) "/r" false treeABC zeroed).counts.files = 0 ∧
      (count (linux .dtype) "/r" false treeABC zeroed).counts.dirs = 0 ∧
      (count (linux .dtype) "/r" false treeABC zeroed).exited = none) ∧
    (nonDirEntries treeABC = 3 ∧ dirEntries treeABC = 1) ∧
    (nonDirEntries treeOneOne = 1 ∧ dirEntries treeOneOne = 1) ∧
    ((count (linux .lstat) "/r" true treeOneOne zeroed).counts.files = 1 ∧
      (count (linux .lstat) "/r" true treeOneOne zeroed).counts.dirs = 1) :=
  ⟨⟨by decide, by decide, by decide, by decide⟩,
   C1_counts_of_undisturbed_tree (linux .dtype) "/r" treeABC (by decide) (by decide)
     (by decide) (by decide),
   by decide, by decide, by decide⟩

/-! ## C7 : the order of the entries -/

/-- C7, as stated, fails: `treeVanishedLast` lists the entries of `treeVanished`
in another order, and `count` ends with `files = 1` on the one and `files = 0`
on the other. -/
theorem C7_counterexample :
    Shuffle treeVanished treeVanishedLast ∧
    (count (linux .lstat) "/r" true treeVanished zeroed).counts.files = 0 ∧
    (count (linux .lstat) "/r" true treeVanishedLast zeroed).counts.files = 1 := by
  refine ⟨?_, by decide, by decide⟩
  exact Shuffle.inside _ _ _ _ (Shuffle.same _)
    (Shuffle.inside _ _ _ _ (Shuffle.same _) (Shuffle.swap _ _ _ _ _ _ _ _ _ _ _))

/-- C7, amended: when no `lstat` the traversal calls fails, every composed child
path the traversal reaches has fewer than `PATH_MAX` bytes and the counting
limit is not reached (the counters at the start and the entries the build
sees of each kind do not pass `ULONG_MAX` together), listing the entries of
any directories of the tree in another order leaves the final `files` and
`dirs` unchanged, and `count` returns for both orders. -/
theorem C7_order_independent_when_undisturbed (cfg : Config) (path : String) (opens : Bool)
    (l l1 : Listing) (c : filecount) (hs : Shuffle l l1)
    (hu : undisturbed cfg path l = true)
    (hf : c.files + filesSeen cfg.build l ≤ cfg.ULONG_MAX)
    (hd : c.dirs + dirsSeen cfg.build l ≤ cfg.ULONG_MAX) :
    (count cfg path opens l1 c).counts.files = (count cfg path opens l c).counts.files ∧
    (count cfg path opens l1 c).counts.dirs = (count cfg path opens l c).counts.dirs ∧
    (count cfg path opens l1 c).exited = none ∧
    (count cfg path opens l c).exited = none := by
  cases opens with
  | false => simp [count]
  | true =>
    simp only [count, if_true]
    have h := readdirLoop_undisturbed cfg l path c hu hf hd
    have he := shuffle_entries cfg.build hs
    have h1 := readdirLoop_undisturbed cfg l1 path c
      (by rw [← shuffle_undisturbed cfg hs path]; exact hu)
      (by rw [← he.1]; exact hf) (by rw [← he.2]; exact hd)
    refine ⟨?_, ?_, h1.2.2, h.2.2⟩
    · rw [h1.1, h.1, he.1]
    · rw [h1.2.1, h.2.1, he.2]

/-- The tree `a.txt`, `b.txt`, `sub/c.txt` with `b.txt` and `sub` exchanged. -/
theorem C7_order_independent_when_undisturbed_witness :
    (Shuffle treeABC
        (dots (file "a.txt" (dir "sub" (dots (file "c.txt" .done)) (file "b.txt" .done)))) ∧
      undisturbed (linux .lstat) "/r" treeABC = true ∧
      zeroed.files + filesSeen (linux .lstat).build treeABC ≤ (linux .lstat).ULONG_MAX ∧
      zeroed.dirs + dirsSeen (linux .lstat).build treeABC ≤ (linux .lstat).ULONG_MAX) ∧
    ((count (linux .lstat) "/r" true
        (dots (file "a.txt" (dir "sub" (dots (file "c.txt" .done)) (file "b.txt" .done))))
        zeroed).counts.files = (count (linux .lstat) "/r" true treeABC zeroed).counts.files ∧
      (count (linux .lstat) "/r" true
        (dots (file "a.txt" (dir "sub" (dots (file "c.txt" .done)) (file "b.txt" .done))))
        zeroed).counts.dirs = (count (linux .lstat) "/r" true treeABC zeroed).counts.dirs ∧
      (count (linux .lstat) "/r" true
        (dots (file "a.txt" (dir "sub" (dots (file "c.txt" .done)) (file "b.txt" .done))))
        zeroed).exited = none ∧
      (count (linux .lstat) "/r" true treeABC zeroed).exited = none) :=
  have hs : Shuffle treeABC
      (dots (file "a.txt" (dir "sub" (dots (file "c.txt" .done)) (file "b.txt" .done)))) :=
    Shuffle.inside _ _ _ _ (Shuffle.same _)
      (Shuffle.inside _ _ _ _ (Shuffle.same _)
        (Shuffle.inside _ _ _ _ (Shuffle.same _) (Shuffle.swap _ _ _ _ _ _ _ _ _ _ _)))
  ⟨⟨hs, by decide, by decide, by decide⟩,
   C7_order_independent_when_undisturbed (linux .lstat) "/r" true _ _ zeroed hs
     (by decide) (by decide) (by decide)⟩

/-! ## C2 : a directory that cannot be opened -/

/-- C2: `count` on a path that cannot be opened calls `perror` on it and returns
with every counter unchanged; the loop of the caller, which has counted the
directory (its composed path fitting the buffer), goes on with the entry after
it; and a tree with a subdirectory that cannot be opened ends with the same
counters, and ends the same way, as the tree with that subdirectory empty,
on every tree no composed path of which fills the buffer. -/
theorem C2_unreadable_directory (cfg : Config) :
    (∀ (path : String) (l : Listing) (c : filecount),
      count cfg path false l c = ⟨c, [.perror path], none⟩) ∧
    (∀ (path d_name : String) (d_type : Nat) (st : Option stat) (sub next : Listing)
      (c : filecount),
      strlen path + 1 + strlen d_name < cfg.PATH_MAX →
      classify cfg.build d_type st = some true →
      ¬ (".." = d_name ∨ "." = d_name) →
      cfg.ULONG_MAX ≠ c.dirs →
      readdirLoop cfg path (.entry d_name d_type st false sub next) c =
        ⟨(readdirLoop cfg path next
            { c with dirs := incr cfg c.dirs,
                     size_dirs := addSize cfg c.size_dirs st }).counts,
         .perror (subpath path d_name) ::
           (readdirLoop cfg path next
            { c with dirs := incr cfg c.dirs,
                     size_dirs := addSize cfg c.size_dirs st }).out,
         (readdirLoop cfg path next
            { c with dirs := incr cfg c.dirs,
                     size_dirs := addSize cfg c.size_dirs st }).exited⟩) ∧
    (∀ (path : String) (opens : Bool) (l l1 : Listing) (c : filecount), Emptied l l1 →
      fitsBuffer cfg path l = true →
      fitsBuffer cfg path l1 = true ∧
      (count cfg path opens l c).counts = (count cfg path opens l1 c).counts ∧
      (count cfg path opens l c).exited = (count cfg path opens l1 c).exited) ∧
    (∀ (path : String) (l : Listing) (c : filecount),
      (count cfg path false l c).counts = (count cfg path true .done c).counts ∧
      (count cfg path false l c).exited = (count cfg path true .done c).exited) := by
  refine ⟨fun path l c => rfl, ?_, ?_, fun path l c => ⟨rfl, rfl⟩⟩
  · intro path d_name d_type st sub next c hlt hcl hdot hmax
    have hlen : ¬ strlen path + 1 + strlen d_name > cfg.PATH_MAX := by omega
    rw [readdirLoop_dir cfg path d_name d_type st false sub next c hlen hcl hdot hmax]
    rfl
  · intro path opens l l1 c h hfit
    refine ⟨emptied_fitsBuffer cfg h path hfit, ?_⟩
    cases opens with
    | false => exact ⟨rfl, rfl⟩
    | true => simpa [count] using readdirLoop_emptied cfg h path c

/-- The root `/r` with `a.txt`, a subdirectory `locked` that cannot be opened and
`b.txt`: the loop goes on after `locked`, and the counters are those of the
tree with `locked` empty, `files = 2` and `dirs = 1`. -/
theorem C2_unreadable_directory_witness :
    (readdirLoop (linux .dtype) "/r"
        (.entry "locked" DT_DIR (some ⟨modeDir, 4096⟩) false .done (file "b.txt" .done))
        ⟨0, 1, 0, 0⟩).out = [.perror "/r/locked"] ∧
    (readdirLoop (linux .dtype) "/r"
        (.entry "locked" DT_DIR (some ⟨modeDir, 4096⟩) false .done (file "b.txt" .done))
        ⟨0, 1, 0, 0⟩).counts = ⟨1, 2, 0, 0⟩ ∧
    fitsBuffer (linux .dtype) "/r"
        (dots (file "a.txt"
          (.entry "locked" DT_DIR (some ⟨modeDir, 4096⟩) false (file "hidden" .done)
            (file "b.txt" .done)))) = true ∧
    (count (linux .dtype) "/r" true
        (dots (file "a.txt"
          (.entry "locked" DT_DIR (some ⟨modeDir, 4096⟩) false (file "hidden" .done)
            (file "b.txt" .done)))) zeroed).counts =
      (count (linux .dtype) "/r" true
        (dots (file "a.txt" (dir "locked" .done (file "b.txt" .done)))) zeroed).counts ∧
    (count (linux .dtype) "/r" true
        (dots (file "a.txt" (dir "locked" .done (file "b.txt" .done)))) zeroed).counts =
      ⟨1, 2, 0, 0⟩ := by
  have h := C2_unreadable_directory (linux .dtype)
  have h2 := h.2.1 "/r" "locked" DT_DIR (some ⟨modeDir, 4096⟩) .done (file "b.txt" .done)
    ⟨0, 1, 0, 0⟩ (by decide) (by decide) (by decide) (by decide)
  have hfit : fitsBuffer (linux .dtype) "/r"
      (dots (file "a.txt"
        (.entry "locked" DT_DIR (some ⟨modeDir, 4096⟩) false (file "hidden" .done)
          (file "b.txt" .done)))) = true := by decide
  have h3 := (h.2.2.1 "/r" true
    (dots (file "a.txt"
      (.entry "locked" DT_DIR (some ⟨modeDir, 4096⟩) false (file "hidden" .done)
        (file "b.txt" .done))))
    (dots (file "a.txt" (dir "locked" .done (file "b.txt" .done)))) zeroed
    (Emptied.after _ _ _ _ _ (Emptied.after _ _ _ _ _ (Emptied.after _ _ _ _ _
      (Emptied.here _ _ _ _ _)))) hfit).2.1
  refine ⟨?_, ?_, hfit, h3, by decide⟩
  · rw [h2]; decide
  · rw [h2]; decide

/-! ## C8 : the two ways to classify an entry -/

/-- The builds without `FEATURE_SIZE` leave the size fields alone. -/
theorem addSize_off (cfg : Config) (total : Nat) (sb : Option stat)
    (h : cfg.build ≠ .lstatSize) : addSize cfg total sb = total := by
  unfold addSize
  split
  · rename_i hb; exact absurd hb h
  · rfl

/-- Where the hints agree with `lstat`, the loop of the build that reads the
hints and the loop of the build that calls `lstat` on every entry end alike. -/
theorem readdirLoop_agree (pm um : Nat) (l : Listing) :
    ∀ (path : String) (c : filecount), hintsAgree l = true →
      readdirLoop ⟨.dtype, pm, um⟩ path l c = readdirLoop ⟨.lstat, pm, um⟩ path l c := by
  induction l with
  | done => intro path c _; rfl
  | entry d_name d_type st opens sub next ihs ihn =>
    intro path c h
    simp only [hintsAgree, Bool.and_eq_true] at h
    obtain ⟨⟨hst, hsub⟩, hnext⟩ := h
    cases st with
    | none => simp at hst
    | some sb =>
      have hcl := classify_agree d_type sb hst
      have ha : ∀ t : Nat, addSize ⟨.dtype, pm, um⟩ t (some sb) =
          addSize ⟨.lstat, pm, um⟩ t (some sb) := by
        intro t
        rw [addSize_off _ _ _ (by simp), addSize_off _ _ _ (by simp)]
      simp only [readdirLoop, hcl, ha, incr, ihs _ _ hsub, ihn _ _ hnext]

/-- C8: on a tree in which no `lstat` fails and every type hint is `DT_UNKNOWN`
or agrees with the directory bit `lstat` reports, `count` in the build that
reads `d_type` and `count` in the build that calls `lstat` on every entry end
alike, with identical counters; and in the build that reads `d_type` an entry
whose hint is `DT_UNKNOWN` and that `lstat` does not report as a directory
(a symbolic link to a directory, say) is counted as a file and not descended
into, whatever `opendir` would answer for it. -/
theorem C8_strategies_agree (pm um : Nat) :
    (∀ (path : String) (opens : Bool) (l : Listing) (c : filecount), hintsAgree l = true →
      count ⟨.dtype, pm, um⟩ path opens l c = count ⟨.lstat, pm, um⟩ path opens l c) ∧
    (∀ (path d_name : String) (sb : stat) (opens : Bool) (sub next : Listing)
      (c : filecount),
      ¬ strlen path + 1 + strlen d_name > pm →
      S_ISDIR sb.st_mode = false →
      um ≠ c.files →
      readdirLoop ⟨.dtype, pm, um⟩ path
          (.entry d_name DT_UNKNOWN (some sb) opens sub next) c =
        readdirLoop ⟨.dtype, pm, um⟩ path next
          { c with files := incr ⟨.dtype, pm, um⟩ c.files }) := by
  constructor
  · intro path opens l c h
    cases opens with
    | false => rfl
    | true => simpa [count] using readdirLoop_agree pm um l path c h
  · intro path d_name sb opens sub next c hlen hmode hmax
    have hcl : classify (Config.mk .dtype pm um).build DT_UNKNOWN (some sb) = some false := by
      simp [classify, hmode]
    rw [readdirLoop_file ⟨.dtype, pm, um⟩ path d_name DT_UNKNOWN (some sb) opens sub next c
      hlen hcl hmax]
    rw [addSize_off _ _ _ (by simp)]

/-- The tree `a.txt`, `b.txt`, `sub/c.txt` with hints, and a symbolic link `ln`
to a directory whose hint is `DT_UNKNOWN`: it is counted as a file, and the
file `below` that `opendir` would reach through it is not. -/
theorem C8_strategies_agree_witness :
    hintsAgree treeABC = true ∧
    count (linux .dtype) "/r" true treeABC zeroed = count (linux .lstat) "/r" true treeABC zeroed ∧
    (count (linux .dtype) "/r" true treeABC zeroed).counts = ⟨1, 3, 0, 0⟩ ∧
    (readdirLoop (linux .dtype) "/r"
        (.entry "ln" DT_UNKNOWN (some ⟨modeLnk, 3⟩) true (file "below" .done) .done)
        zeroed).counts = ⟨0, 1, 0, 0⟩ :=
  ⟨by decide,
   (C8_strategies_agree 4096 (2 ^ 64 - 1)).1 "/r" true treeABC zeroed (by decide),
   by decide,
   by
     have h := (C8_strategies_agree 4096 (2 ^ 64 - 1)).2 "/r" "ln" ⟨modeLnk, 3⟩ true
       (file "below" .done) .done zeroed (by decide) (by decide) (by decide)
     exact h ▸ (by decide)⟩

/-! ## C3 : a composed path longer than `PATH_MAX` -/

/-- The traversal of `treeDeep` from `deepRoot`: the report is made in the
nested call on `sub`, which returns; the loop of the root then counts
`after.txt`. -/
theorem count_treeDeep (b : Build) :
    count (linux b) deepRoot true treeDeep zeroed =
      ⟨⟨1, 1, (match b with | .lstatSize => 4096 | _ => 0), 0⟩,
       [.pathTooLong 4121 (subpath deepRoot "sub") (nameOfLength 100)], none⟩ := by
  have h1 : strlen "." = 1 := by decide
  have h2 : strlen ".." = 2 := by decide
  have h3 : strlen "sub" = 3 := by decide
  have h4 : strlen "after.txt" = 9 := by decide
  have h5 : S_ISDIR modeDir = true := by decide
  have h6 : S_ISDIR modeReg = false := by decide
  cases b <;>
    simp [count, readdirLoop, treeDeep, dots, dir, file, classify, linux, DT_DIR, DT_REG,
      DT_UNKNOWN, strlen_subpath, deepRoot, strlen_deepPath, strlen_nameOfLength, zeroed,
      incr, addSize, h1, h2, h3, h4, h5, h6]

/-- C3, as stated, fails: in the traversal of `treeDeep` from `deepRoot` the
composed path is too long in the nested call on `sub`, when the counters are
`dirs = 1`, `files = 0`; that call returns, the loop of the root goes on and
counts `after.txt`, and the final counters are `dirs = 1`, `files = 1`. -/
theorem C3_counterexample :
    strlen (subpath deepRoot "sub") + 1 + strlen (nameOfLength 100) >
      (linux .dtype).PATH_MAX ∧
    readdirLoop (linux .dtype) (subpath deepRoot "sub")
        (file (nameOfLength 100) (file "x" .done)) ⟨1, 0, 0, 0⟩ =
      ⟨⟨1, 0, 0, 0⟩, [.pathTooLong 4121 (subpath deepRoot "sub") (nameOfLength 100)], none⟩ ∧
    count (linux .dtype) deepRoot true treeDeep zeroed =
      ⟨⟨1, 1, 0, 0⟩, [.pathTooLong 4121 (subpath deepRoot "sub") (nameOfLength 100)], none⟩ ∧
    (count (linux .dtype) deepRoot true treeDeep zeroed).counts ≠ ⟨1, 0, 0, 0⟩ := by
  have hlen : strlen (subpath deepRoot "sub") + 1 + strlen (nameOfLength 100) = 4121 := by
    have h3 : strlen "sub" = 3 := by decide
    simp [strlen_subpath, deepRoot, strlen_deepPath, strlen_nameOfLength, h3]
  refine ⟨?_, ?_, count_treeDeep .dtype, ?_⟩
  · rw [hlen]; decide
  · rw [file, readdirLoop_tooLong _ _ _ _ _ _ _ _ _ (by rw [hlen]; decide), hlen]
  · rw [count_treeDeep .dtype]; decide

/-- C3, amended: when the composed child path is longer than `PATH_MAX`, the
call of `count` that detects it writes the report and returns at once: no
later entry of the directory it was reading is counted, and it returns the
counters as they were at the detection.  The traversal is not aborted: the
loop of the caller goes on with the entry after the subdirectory. -/
theorem C3_path_too_long_returns (cfg : Config) :
    (∀ (path d_name : String) (d_type : Nat) (st : Option stat) (opens : Bool)
      (sub next : Listing) (c : filecount),
      strlen path + 1 + strlen d_name > cfg.PATH_MAX →
      readdirLoop cfg path (.entry d_name d_type st opens sub next) c =
        ⟨c, [.pathTooLong (strlen path + 1 + strlen d_name) path d_name], none⟩) ∧
    (∀ (path p_name : String) (p_type : Nat) (p_st : Option stat)
      (d_name : String) (d_type : Nat) (st : Option stat) (opens : Bool)
      (sub next rest : Listing) (c : filecount),
      ¬ strlen path + 1 + strlen p_name > cfg.PATH_MAX →
      classify cfg.build p_type p_st = some true →
      ¬ (".." = p_name ∨ "." = p_name) →
      cfg.ULONG_MAX ≠ c.dirs →
      strlen (subpath path p_name) + 1 + strlen d_name > cfg.PATH_MAX →
      readdirLoop cfg path
          (.entry p_name p_type p_st true (.entry d_name d_type st opens sub next) rest) c =
        ⟨(readdirLoop cfg path rest
            { c with dirs := incr cfg c.dirs,
                     size_dirs := addSize cfg c.size_dirs p_st }).counts,
         .pathTooLong (strlen (subpath path p_name) + 1 + strlen d_name)
             (subpath path p_name) d_name ::
           (readdirLoop cfg path rest
            { c with dirs := incr cfg c.dirs,
                     size_dirs := addSize cfg c.size_dirs p_st }).out,
         (readdirLoop cfg path rest
            { c with dirs := incr cfg c.dirs,
                     size_dirs := addSize cfg c.size_dirs p_st }).exited⟩) := by
  constructor
  · intro path d_name d_type st opens sub next c hlen
    exact readdirLoop_tooLong cfg path d_name d_type st opens sub next c hlen
  · intro path p_name p_type p_st d_name d_type st opens sub next rest c hp hcl hdot hmax hlen
    rw [readdirLoop_dir cfg path p_name p_type p_st true _ rest c hp hcl hdot hmax]
    simp only [count, if_true]
    rw [readdirLoop_tooLong cfg (subpath path p_name) d_name d_type st opens sub next _ hlen]
    rfl

/-- In `deepRoot/sub` the file with the long name stops the enumeration of `sub`
before `x`; the root `deepRoot` goes on after `sub` and counts `after.txt`. -/
theorem C3_path_too_long_returns_witness :
    (readdirLoop (linux .dtype) (subpath deepRoot "sub")
        (file (nameOfLength 100) (file "x" .done)) ⟨1, 0, 0, 0⟩).counts = ⟨1, 0, 0, 0⟩ ∧
    (readdirLoop (linux .dtype) deepRoot
        (dir "sub" (file (nameOfLength 100) (file "x" .done)) (file "after.txt" .done))
        zeroed).counts = ⟨1, 1, 0, 0⟩ := by
  have h3 : strlen "sub" = 3 := by decide
  have h4 : strlen "after.txt" = 9 := by decide
  have hlen : strlen (subpath deepRoot "sub") + 1 + strlen (nameOfLength 100) >
      (linux .dtype).PATH_MAX := by
    simp [strlen_subpath, deepRoot, strlen_deepPath, strlen_nameOfLength, h3, linux]
  have hp : ¬ strlen deepRoot + 1 + strlen "sub" > (linux .dtype).PATH_MAX := by
    simp [deepRoot, strlen_deepPath, h3, linux]
  have hq : ¬ strlen deepRoot + 1 + strlen "after.txt" > (linux .dtype).PATH_MAX := by
    simp [deepRoot, strlen_deepPath, h4, linux]
  have h := C3_path_too_long_returns (linux .dtype)
  constructor
  · rw [file, h.1 _ _ _ _ _ _ _ _ hlen]
  · rw [dir, file, h.2 deepRoot "sub" _ _ _ _ _ _ _ _ _ zeroed hp (by decide) (by decide)
      (by decide) hlen]
    rw [file, readdirLoop_file _ _ _ _ _ _ _ _ _ hq (by decide) (by decide)]
    simp only [readdirLoop]
    decide

/-! ## C4 : what a run with a path that is too long prints -/

/-- C4, as stated, fails: the run on `treeDeep` from `deepRoot` meets a composed
path that is too long, and yet `main` prints the totals line with `files = 1`
and `dirs = 1`, so that standard output is not empty. -/
theorem C4_counterexample :
    (main (linux .dtype) ["dircnt", deepRoot] true treeDeep).out =
      [.pathTooLong 4121 (subpath deepRoot "sub") (nameOfLength 100),
       .totals deepRoot 1 1] ∧
    (main (linux .dtype) ["dircnt", deepRoot] true treeDeep).status = 0 ∧
    0 < strlen (stdoutOf (main (linux .dtype) ["dircnt", deepRoot] true treeDeep).out) := by
  have hc : count (linux .dtype) (argDir ["dircnt", deepRoot]) true treeDeep zeroed =
      ⟨⟨1, 1, 0, 0⟩, [.pathTooLong 4121 (subpath deepRoot "sub") (nameOfLength 100)], none⟩ :=
    count_treeDeep .dtype
  have hm : main (linux .dtype) ["dircnt", deepRoot] true treeDeep =
      ⟨[.pathTooLong 4121 (subpath deepRoot "sub") (nameOfLength 100),
        .totals deepRoot 1 1], 0⟩ := by
    rw [main_returned _ _ _ _ (by rw [hc]), hc]
    rfl
  rw [hm]
  refine ⟨rfl, rfl, ?_⟩
  have h2 : strlen "\t\n" = 2 := by decide
  simp only [stdoutOf, Event.stdoutText, strlen_append, h2]
  omega

/-- C4, amended: in a run in which a composed child path is longer than
`PATH_MAX`, the call that detects it returns with the counters unchanged, the
counts are kept, and when `count` has returned `main` prints the totals line
on standard output if a final count is not zero, and prints no totals line
only if both are zero. -/
theorem C4_totals_after_path_too_long (cfg : Config) :
    (∀ (path d_name : String) (d_type : Nat) (st : Option stat) (opens : Bool)
      (sub next : Listing) (c : filecount),
      strlen path + 1 + strlen d_name > cfg.PATH_MAX →
      (readdirLoop cfg path (.entry d_name d_type st opens sub next) c).counts = c ∧
      (readdirLoop cfg path (.entry d_name d_type st opens sub next) c).exited = none) ∧
    (∀ (argv : List String) (opens : Bool) (root : Listing),
      (∃ e ∈ (count cfg (argDir argv) opens root zeroed).out, e.isPathTooLong = true) →
      (count cfg (argDir argv) opens root zeroed).exited = none →
      (main cfg argv opens root).status = 0 ∧
      ((0 < (count cfg (argDir argv) opens root zeroed).counts.files ∨
          0 < (count cfg (argDir argv) opens root zeroed).counts.dirs) →
        (main cfg argv opens root).out.getLast? =
          some (match cfg.build with
            | .lstatSize =>
              Event.totalsSize (argDir argv)
                (count cfg (argDir argv) opens root zeroed).counts.files
                (count cfg (argDir argv) opens root zeroed).counts.size_files
                (count cfg (argDir argv) opens root zeroed).counts.dirs
                (count cfg (argDir argv) opens root zeroed).counts.size_dirs
            | _ =>
              Event.totals (argDir argv)
                (count cfg (argDir argv) opens root zeroed).counts.files
                (count cfg (argDir argv) opens root zeroed).counts.dirs)) ∧
      (¬ (0 < (count cfg (argDir argv) opens root zeroed).counts.files ∨
          0 < (count cfg (argDir argv) opens root zeroed).counts.dirs) →
        (main cfg argv opens root).out = (count cfg (argDir argv) opens root zeroed).out)) := by
  constructor
  · intro path d_name d_type st opens sub next c hlen
    rw [readdirLoop_tooLong cfg path d_name d_type st opens sub next c hlen]
    exact ⟨rfl, rfl⟩
  · intro argv opens root _ hr
    rw [main_returned cfg argv opens root hr]
    refine ⟨rfl, ?_, ?_⟩
    · intro hpos
      simp only [if_pos hpos]
      cases cfg.build <;> simp
    · intro hzero
      simp only [if_neg hzero, List.append_nil]

/-- The run on `treeDeep` from `deepRoot`: the report is made, `count` returns
with `files = 1` and `dirs = 1`, and the last thing `main` writes is the totals
line. -/
theorem C4_totals_after_path_too_long_witness :
    (∃ e ∈ (count (linux .dtype) (argDir ["dircnt", deepRoot]) true treeDeep zeroed).out,
      e.isPathTooLong = true) ∧
    (count (linux .dtype) (argDir ["dircnt", deepRoot]) true treeDeep zeroed).exited = none ∧
    (main (linux .dtype) ["dircnt", deepRoot] true treeDeep).out.getLast? =
      some (.totals deepRoot 1 1) := by
  have hc : count (linux .dtype) (argDir ["dircnt", deepRoot]) true treeDeep zeroed =
      ⟨⟨1, 1, 0, 0⟩, [.pathTooLong 4121 (subpath deepRoot "sub") (nameOfLength 100)], none⟩ :=
    count_treeDeep .dtype
  have hex : ∃ e ∈ (count (linux .dtype) (argDir ["dircnt", deepRoot]) true treeDeep
      zeroed).out, e.isPathTooLong = true := by
    rw [hc]
    exact ⟨_, List.mem_singleton.2 rfl, rfl⟩
  have hr : (count (linux .dtype) (argDir ["dircnt", deepRoot]) true treeDeep zeroed).exited =
      none := by rw [hc]
  have h := ((C4_totals_after_path_too_long (linux .dtype)).2 ["dircnt", deepRoot] true
    treeDeep hex hr).2.1 (by rw [hc]; decide)
  refine ⟨hex, hr, ?_⟩
  rw [h, hc]
  rfl

/-! ## C5 : the counting limit -/

/-- C6: without size accounting, once `count` has returned with `files = f` and
`dirs = d`, `main` writes on standard output, after what `count` wrote, exactly
the chosen directory, a tab, `f` in decimal, a tab, `d` in decimal, a tab and a
newline when `f > 0` or `d > 0`, and nothing when both are zero, and ends with
status 0; `count` itself leaves standard output empty unless it reports a path
as too long; an empty root directory prints nothing. -/
theorem C6_totals_line (cfg : Config) (argv : List String) (opens : Bool) (root : Listing)
    (hb : cfg.build ≠ .lstatSize)
    (hr : (count cfg (argDir argv) opens root zeroed).exited = none) :
    (main cfg argv opens root).status = 0 ∧
    ((0 < (count cfg (argDir argv) opens root zeroed).counts.files ∨
        0 < (count cfg (argDir argv) opens root zeroed).counts.dirs) →
      stdoutOf (main cfg argv opens root).out =
        stdoutOf (count cfg (argDir argv) opens root zeroed).out ++
          (argDir argv ++ "\t" ++
            Nat.repr (count cfg (argDir argv) opens root zeroed).counts.files ++ "\t" ++
            Nat.repr (count cfg (argDir argv) opens root zeroed).counts.dirs ++ "\t\n")) ∧
    (((count cfg (argDir argv) opens root zeroed).counts.files = 0 ∧
        (count cfg (argDir argv) opens root zeroed).counts.dirs = 0) →
      (main cfg argv opens root).out = (count cfg (argDir argv) opens root zeroed).out) ∧
    ((∀ e ∈ (count cfg (argDir argv) opens root zeroed).out, e.isPathTooLong = false) →
      stdoutOf (count cfg (argDir argv) opens root zeroed).out = "") ∧
    stdoutOf (main cfg argv true .done).out = "" := by
  rw [main_returned cfg argv opens root hr]
  refine ⟨rfl, ?_, ?_, ?_, ?_⟩
  · intro hpos
    simp only [if_pos hpos, stdoutOf_append]
    cases hbuild : cfg.build with
    | lstatSize => exact absurd hbuild hb
    | dtype => simp [stdoutOf, Event.stdoutText]
    | lstat => simp [stdoutOf, Event.stdoutText]
  · intro hzero
    have hn : ¬ (0 < (count cfg (argDir argv) opens root zeroed).counts.files ∨
        0 < (count cfg (argDir argv) opens root zeroed).counts.dirs) := by
      rw [hzero.1, hzero.2]; simp
    simp only [if_neg hn, List.append_nil]
  · intro hno
    exact count_stdout cfg (argDir argv) opens root zeroed hno
  · rw [main_returned cfg argv true .done rfl]
    rfl

/-- The root `/r` with `a.txt`, `b.txt` and `sub/c.txt`, read through the type
hints: standard output holds the one line of the specification. -/
theorem C6_totals_line_witness :
    ((linux .dtype).build ≠ .lstatSize ∧
      (count (linux .dtype) (argDir ["dircnt", "/r"]) true treeABC zeroed).exited = none) ∧
    stdoutOf (main (linux .dtype) ["dircnt", "/r"] true treeABC).out = "/r\t3\t1\t\n" ∧
    stdoutOf (main (linux .dtype) ["dircnt"] true (dots .done)).out = "" := by
  have h := C6_totals_line (linux .dtype) ["dircnt", "/r"] true treeABC (by decide) (by decide)
  refine ⟨⟨by decide, by decide⟩, ?_, by decide⟩
  rw [h.2.1 (by decide), h.2.2.2.1 (by decide)]
  decide

/-! ## C9 : the buffer `subpath` -/

/-- The guard of line 80 lets through a composed path of exactly `PATH_MAX`
bytes, for which `sprintf` stores `PATH_MAX + 1` bytes. -/
theorem guard_admits_full_buffer (cfg : Config) (path d_name : String)
    (h : strlen path + 1 + strlen d_name = cfg.PATH_MAX) :
    ¬ strlen path + 1 + strlen d_name > cfg.PATH_MAX ∧
    sprintfBytes path d_name = cfg.PATH_MAX + 1 := by
  refine ⟨by omega, ?_⟩
  rw [sprintfBytes, strlen_subpath, h]

/-- C9 fails on the code: in a directory whose path has 3840 bytes, an entry
whose name has 255 bytes passes the guard of line 80 (3840 + 1 + 255 is
`PATH_MAX`, not more), the entry is counted, and the `sprintf` of line 124
stores 4097 bytes into the 4096 bytes of `subpath`. -/
theorem C9_guard_off_by_one :
    strlen (deepPath 15 255) = 3840 ∧ strlen (nameOfLength 255) = 255 ∧
    ¬ strlen (deepPath 15 255) + 1 + strlen (nameOfLength 255) > (linux .lstat).PATH_MAX ∧
    (readdirLoop (linux .lstat) (deepPath 15 255) (file (nameOfLength 255) .done)
      zeroed).counts.files = 1 ∧
    sprintfBytes (deepPath 15 255) (nameOfLength 255) = 4097 ∧
    ¬ sprintfBytes (deepPath 15 255) (nameOfLength 255) ≤ (linux .lstat).PATH_MAX := by
  have hlen : strlen (deepPath 15 255) + 1 + strlen (nameOfLength 255) =
      (linux .lstat).PATH_MAX := by
    simp [strlen_deepPath, strlen_nameOfLength, linux]
  have hg := guard_admits_full_buffer (linux .lstat) _ _ hlen
  refine ⟨by simp [strlen_deepPath], strlen_nameOfLength 255, hg.1, ?_, hg.2, ?_⟩
  · rw [file, readdirLoop_file _ _ _ _ _ _ _ _ _ hg.1 (by decide) (by decide)]
    simp only [readdirLoop]
    decide
  · rw [hg.2]; decide

/-! ## C10 : a failing `lstat` -/

/-- C10: when the `lstat` of an entry whose composed path fits the buffer is
called and fails, the loop calls `perror` on the composed child path and
returns at once with the counters as they were: neither that entry nor any
entry after it in the directory is counted or descended into; and the loop of
the caller, which had counted the directory, goes on with the entry after
it. -/
theorem C10_lstat_failure (cfg : Config) :
    (∀ (path d_name : String) (d_type : Nat) (opens : Bool) (sub next : Listing)
      (c : filecount),
      strlen path + 1 + strlen d_name < cfg.PATH_MAX →
      (cfg.build = .dtype → DT_UNKNOWN = d_type) →
      readdirLoop cfg path (.entry d_name d_type none opens sub next) c =
        ⟨c, [.perror (subpath path d_name)], none⟩) ∧
    (∀ (path p_name : String) (p_type : Nat) (p_st : Option stat)
      (d_name : String) (d_type : Nat) (opens : Bool) (sub next rest : Listing)
      (c : filecount),
      strlen path + 1 + strlen p_name < cfg.PATH_MAX →
      classify cfg.build p_type p_st = some true →
      ¬ (".." = p_name ∨ "." = p_name) →
      cfg.ULONG_MAX ≠ c.dirs →
      strlen (subpath path p_name) + 1 + strlen d_name < cfg.PATH_MAX →
      (cfg.build = .dtype → DT_UNKNOWN = d_type) →
      readdirLoop cfg path
          (.entry p_name p_type p_st true (.entry d_name d_type none opens sub next) rest) c =
        ⟨(readdirLoop cfg path rest
            { c with dirs := incr cfg c.dirs,
                     size_dirs := addSize cfg c.size_dirs p_st }).counts,
         .perror (subpath (subpath path p_name) d_name) ::
           (readdirLoop cfg path rest
            { c with dirs := incr cfg c.dirs,
                     size_dirs := addSize cfg c.size_dirs p_st }).out,
         (readdirLoop cfg path rest
            { c with dirs := incr cfg c.dirs,
                     size_dirs := addSize cfg c.size_dirs p_st }).exited⟩) := by
  have hnone : ∀ d_type : Nat, (cfg.build = .dtype → DT_UNKNOWN = d_type) →
      classify cfg.build d_type none = none := by
    intro d_type hu
    cases hb : cfg.build with
    | dtype => simp [classify, hu hb]
    | lstat => simp [classify]
    | lstatSize => simp [classify]
  constructor
  · intro path d_name d_type opens sub next c hlt hu
    have hlen : ¬ strlen path + 1 + strlen d_name > cfg.PATH_MAX := by omega
    exact readdirLoop_lstatFails cfg path d_name d_type none opens sub next c hlen
      (hnone d_type hu)
  · intro path p_name p_type p_st d_name d_type opens sub next rest c hpl hcl hdot hmax hlt hu
    have hp : ¬ strlen path + 1 + strlen p_name > cfg.PATH_MAX := by omega
    have hlen : ¬ strlen (subpath path p_name) + 1 + strlen d_name > cfg.PATH_MAX := by omega
    rw [readdirLoop_dir cfg path p_name p_type p_st true _ rest c hp hcl hdot hmax]
    simp only [count, if_true]
    rw [readdirLoop_lstatFails cfg (subpath path p_name) d_name d_type none opens sub next _
      hlen (hnone d_type hu)]
    rfl

/-- In the listing `treeVanished` the `lstat` of `gone` fails: `a.txt`, which comes
after it, is not counted; and when that listing is the content of a
subdirectory `sub` of `/r`, the file `z` that follows `sub` in `/r` is counted. -/
theorem C10_lstat_failure_witness :
    readdirLoop (linux .lstat) "/r"
        (.entry "gone" DT_REG none false .done (file "a.txt" .done)) ⟨0, 2, 0, 0⟩ =
      ⟨⟨0, 2, 0, 0⟩, [.perror "/r/gone"], none⟩ ∧
    readdirLoop (linux .lstat) "/r"
        (.entry "sub" DT_DIR (some ⟨modeDir, 4096⟩) true
          (.entry "gone" DT_REG none false .done (file "a.txt" .done)) (file "z" .done))
        zeroed =
      ⟨⟨1, 1, 0, 0⟩, [.perror "/r/sub/gone"], none⟩ := by
  have h := C10_lstat_failure (linux .lstat)
  constructor
  · rw [h.1 "/r" "gone" DT_REG false .done (file "a.txt" .done) ⟨0, 2, 0, 0⟩ (by decide)
      (by decide)]
    decide
  · rw [h.2 "/r" "sub" DT_DIR (some ⟨modeDir, 4096⟩) "gone" DT_REG false .done
      (file "a.txt" .done) (file "z" .done) zeroed (by decide) (by decide) (by decide)
      (by decide) (by decide) (by decide)]
    decide

end Dircnt
